import Mathlib

/-!
Verification of the operator-execution core of the `erdos` streaming dataflow
runtime against its natural-language specification.

The source files under verification are the operator executors:
`src/node/operator_executors/mod.rs` (the `OperatorExecutorHelper` with
`manage_deadlines`, `process_stream` and `process_two_streams`),
`src/node/operator_executors/one_in_one_out_executor.rs` and
`src/node/operator_executors/one_in_two_out_executor.rs`.

Data types that those files consume but that live outside the provided
sources (timestamps, messages, deadline events) are modelled from the
specification, and are marked as such in their doc comments.  Everything
else is a direct shallow embedding of the Rust code: loops become folds,
the per-iteration bodies become step functions, callback closures become
explicit action traces, and the mutable helper state becomes a record that
is threaded through the step functions.
-/

namespace Erdos

/-! ### Timestamps -/

/-- Modelled from the spec: the `dataflow::Timestamp` type is not under
`src/`.  Per §3 of the spec, a timestamp is drawn from
`{Bottom} ∪ Vector(ℕ) ∪ {Top}` with `Bottom < v < Top` for every finite
vector `v` and lexicographic order within finite vectors. -/
inductive Timestamp where
  | Bottom : Timestamp
  | Coord : List Nat → Timestamp
  | Top : Timestamp
deriving DecidableEq, Repr

/-- Lexicographic strict order on coordinate vectors (Rust's derived `Ord`
on `Vec<usize>`): a proper prefix is smaller, otherwise the first unequal
coordinate decides. -/
def natListLtb : List Nat → List Nat → Bool
  | [], [] => false
  | [], _ :: _ => true
  | _ :: _, [] => false
  | a :: as, b :: bs =>
      if a < b then true
      else if b < a then false
      else natListLtb as bs

theorem natListLtb_irrefl : ∀ l : List Nat, natListLtb l l = false := by
  intro l
  induction l with
  | nil => rfl
  | cons a as ih => simp [natListLtb, ih]

theorem natListLtb_trans :
    ∀ a b c : List Nat, natListLtb a b = true → natListLtb b c = true →
      natListLtb a c = true := by
  intro a
  induction a with
  | nil =>
    intro b c hab hbc
    cases b with
    | nil => simp [natListLtb] at hab
    | cons b0 bs =>
      cases c with
      | nil => simp [natListLtb] at hbc
      | cons c0 cs => simp [natListLtb]
  | cons a0 as ih =>
    intro b c hab hbc
    cases b with
    | nil => simp [natListLtb] at hab
    | cons b0 bs =>
      cases c with
      | nil => simp [natListLtb] at hbc
      | cons c0 cs =>
        simp only [natListLtb] at hab hbc ⊢
        split_ifs at hab hbc ⊢ with h1 h2 h3 h4 h5 h6 <;>
          first
            | rfl
            | omega
            | (exact ih bs cs hab hbc)

theorem natListLtb_conn :
    ∀ a b : List Nat, natListLtb a b = false → natListLtb b a = false →
      a = b := by
  intro a
  induction a with
  | nil =>
    intro b hab _
    cases b with
    | nil => rfl
    | cons b0 bs => simp [natListLtb] at hab
  | cons a0 as ih =>
    intro b hab hba
    cases b with
    | nil => simp [natListLtb] at hba
    | cons b0 bs =>
      simp only [natListLtb] at hab hba
      split_ifs at hab hba with h1 h2
      · have : a0 = b0 := by omega
        subst this
        rw [ih bs hab hba]

/-- Strict order on timestamps: `Bottom` below every finite coordinate
vector, `Top` above, lexicographic in between (spec §3). -/
def Timestamp.ltb : Timestamp → Timestamp → Bool
  | .Bottom, .Bottom => false
  | .Bottom, .Coord _ => true
  | .Bottom, .Top => true
  | .Coord _, .Bottom => false
  | .Coord a, .Coord b => natListLtb a b
  | .Coord _, .Top => true
  | .Top, _ => false

theorem Timestamp.ltb_irrefl : ∀ t : Timestamp, Timestamp.ltb t t = false := by
  intro t
  cases t with
  | Bottom => rfl
  | Coord c => simpa [Timestamp.ltb] using natListLtb_irrefl c
  | Top => rfl

theorem Timestamp.ltb_trans :
    ∀ a b c : Timestamp, Timestamp.ltb a b = true → Timestamp.ltb b c = true →
      Timestamp.ltb a c = true := by
  intro a b c hab hbc
  cases a <;> cases b <;> cases c <;>
    simp_all [Timestamp.ltb]
  · exact natListLtb_trans _ _ _ hab hbc

theorem Timestamp.ltb_conn :
    ∀ a b : Timestamp, Timestamp.ltb a b = false → Timestamp.ltb b a = false →
      a = b := by
  intro a b hab hba
  cases a <;> cases b <;> simp_all [Timestamp.ltb]
  · exact natListLtb_conn _ _ (by simpa using hab) (by simpa using hba)

theorem Timestamp.ltb_asymm {a b : Timestamp}
    (h : Timestamp.ltb a b = true) : Timestamp.ltb b a = false := by
  cases hba : Timestamp.ltb b a with
  | false => rfl
  | true =>
    have := Timestamp.ltb_trans a b a h hba
    rw [Timestamp.ltb_irrefl] at this
    exact absurd this (by simp)

/-- Rust's `std::cmp::min(v1, v2)`: returns `v1` when the two compare
equal, otherwise the smaller. -/
def tmin (a b : Timestamp) : Timestamp :=
  if Timestamp.ltb b a then b else a

/-- Anything strictly below `min a b` is strictly below both `a` and `b`. -/
theorem tmin_lt_both {m a b : Timestamp}
    (h : Timestamp.ltb m (tmin a b) = true) :
    Timestamp.ltb m a = true ∧ Timestamp.ltb m b = true := by
  unfold tmin at h
  split_ifs at h with hba
  · exact ⟨Timestamp.ltb_trans m b a h hba, h⟩
  · refine ⟨h, ?_⟩
    cases hab : Timestamp.ltb a b with
    | true => exact Timestamp.ltb_trans m a b h hab
    | false =>
      have : a = b := Timestamp.ltb_conn a b hab (by simpa using hba)
      rw [← this]
      exact h

/-! ### The two-input loop: `OperatorExecutorHelper::process_two_streams` -/

/-- Which of the two input streams a message arrived on. -/
inductive Side where
  | left : Side
  | right : Side
deriving DecidableEq, Repr

/-- Modelled from the spec: `dataflow::Message` is not under `src/`.  A
message is either `Data(timestamp, payload)` or `Watermark(timestamp)`
(spec §3); payloads are opaque to the executor and are modelled as `Nat`. -/
inductive Msg where
  | data : Timestamp → Nat → Msg
  | watermark : Timestamp → Msg
deriving DecidableEq, Repr

/-- The mutable local state of `process_two_streams`
(`mod.rs:316-318`): the two per-side watermarks and the merged
watermark, all initialised from `Timestamp::Bottom`. -/
structure TwoStreamState where
  left_watermark : Timestamp
  right_watermark : Timestamp
  min_watermark : Timestamp
deriving DecidableEq, Repr

/-- One iteration of the `process_two_streams` loop (`mod.rs:319-391`),
restricted to its watermark bookkeeping: a data message produces data
callback events but touches none of the watermark state and produces no
watermark event, so the returned list holds only the timestamps of the
watermark-callback events handed to `lattice.add_events`.  On a watermark
from one side the code first overwrites that side's watermark with the
message timestamp, then tests `cmp::min(&left, &right) > &min_watermark`;
when the test passes it assigns `min_watermark = <that side's watermark>`
(which was just set to the message timestamp) and builds one
`watermark_cb_event` carrying the message timestamp. -/
def process_two_streams_step (st : TwoStreamState) :
    Side × Msg → TwoStreamState × List Timestamp
  | (_, .data _ _) => (st, [])
  | (.left, .watermark t) =>
      if Timestamp.ltb st.min_watermark (tmin t st.right_watermark) then
        ({ st with left_watermark := t, min_watermark := t }, [t])
      else
        ({ st with left_watermark := t }, [])
  | (.right, .watermark t) =>
      if Timestamp.ltb st.min_watermark (tmin st.left_watermark t) then
        ({ st with right_watermark := t, min_watermark := t }, [t])
      else
        ({ st with right_watermark := t }, [])

/-- Running the `process_two_streams` loop over a finite arrival sequence:
fold `process_two_streams_step` and concatenate the emitted
watermark-callback timestamps in order. -/
def process_two_streams_run (st : TwoStreamState) :
    List (Side × Msg) → TwoStreamState × List Timestamp
  | [] => (st, [])
  | i :: rest =>
      let p := process_two_streams_step st i
      let q := process_two_streams_run p.1 rest
      (q.1, p.2 ++ q.2)

/-- The initial state of `process_two_streams` (`mod.rs:316-318`):
both watermarks `Bottom`, merged watermark `cmp::min` of the two. -/
def two_stream_init : TwoStreamState :=
  { left_watermark := Timestamp.Bottom
    right_watermark := Timestamp.Bottom
    min_watermark := tmin Timestamp.Bottom Timestamp.Bottom }

/-- The timestamps of the watermark-callback events produced by
`process_two_streams` on a given arrival sequence, in production order. -/
def emitted_watermarks (inputs : List (Side × Msg)) : List Timestamp :=
  (process_two_streams_run two_stream_init inputs).2

/-- The S2 arrival sequence of the spec: left `Watermark(1), Watermark(3)`
interleaved with right `Watermark(2), Watermark(4)`. -/
def s2_inputs : List (Side × Msg) :=
  [ (Side.left, Msg.watermark (Timestamp.Coord [1]))
  , (Side.right, Msg.watermark (Timestamp.Coord [2]))
  , (Side.left, Msg.watermark (Timestamp.Coord [3]))
  , (Side.right, Msg.watermark (Timestamp.Coord [4])) ]

/-- C1 — counterexample.  On the S2 arrival order (left `Watermark(1)`,
right `Watermark(2)`, left `Watermark(3)`, right `Watermark(4)`) the code
emits watermark-callback events at timestamps `2` then `4`, not `2` then
`3` as the claim states; and after the first two arrivals the merged
watermark is `2`, not the minimum `min(1,2) = 1`, refuting "the merged
watermark advances to that minimum". -/
theorem process_two_streams_s2_cex :
    emitted_watermarks s2_inputs
        = [Timestamp.Coord [2], Timestamp.Coord [4]] ∧
    emitted_watermarks s2_inputs
        ≠ [Timestamp.Coord [2], Timestamp.Coord [3]] ∧
    (process_two_streams_run two_stream_init
        (s2_inputs.take 2)).1.min_watermark = Timestamp.Coord [2] ∧
    tmin (Timestamp.Coord [1]) (Timestamp.Coord [2])
        = Timestamp.Coord [1] := by
  decide

/-- C1 — amended.  In `process_two_streams`, for every watermark received
on either input stream, a watermark-callback event is produced exactly
when `min(left_watermark, right_watermark)` (with the arriving side's
watermark already updated) strictly exceeds the current merged watermark;
when produced, the merged watermark advances to the arriving watermark's
timestamp — not to the minimum — and the event carries that arriving
timestamp; when no event is produced the merged watermark is unchanged.
On the S2 inputs the emitted events are at timestamps 2 then 4. -/
theorem process_two_streams_watermark_advance
    (st : TwoStreamState) (s : Side) (t : Timestamp) :
    ((process_two_streams_step st (s, Msg.watermark t)).2 ≠ [] ↔
      Timestamp.ltb st.min_watermark
        (tmin (process_two_streams_step st (s, Msg.watermark t)).1.left_watermark
          (process_two_streams_step st (s, Msg.watermark t)).1.right_watermark)
        = true) ∧
    ((process_two_streams_step st (s, Msg.watermark t)).2 ≠ [] →
      (process_two_streams_step st (s, Msg.watermark t)).2 = [t] ∧
      (process_two_streams_step st (s, Msg.watermark t)).1.min_watermark = t) ∧
    ((process_two_streams_step st (s, Msg.watermark t)).2 = [] →
      (process_two_streams_step st (s, Msg.watermark t)).1.min_watermark
        = st.min_watermark) ∧
    emitted_watermarks s2_inputs = [Timestamp.Coord [2], Timestamp.Coord [4]] := by
  cases s <;>
    · simp only [process_two_streams_step]
      split_ifs with h <;> simp_all <;> decide

/-- C1 — witness for the amended theorem at a concrete state and input. -/
theorem process_two_streams_watermark_advance_witness :
    (process_two_streams_step
        { left_watermark := Timestamp.Coord [1]
          right_watermark := Timestamp.Bottom
          min_watermark := Timestamp.Bottom }
        (Side.right, Msg.watermark (Timestamp.Coord [2]))).2
      = [Timestamp.Coord [2]] ∧
    (process_two_streams_step
        { left_watermark := Timestamp.Coord [1]
          right_watermark := Timestamp.Bottom
          min_watermark := Timestamp.Bottom }
        (Side.right, Msg.watermark (Timestamp.Coord [2]))).1.min_watermark
      = Timestamp.Coord [2] :=
  (process_two_streams_watermark_advance
    { left_watermark := Timestamp.Coord [1]
      right_watermark := Timestamp.Bottom
      min_watermark := Timestamp.Bottom }
    Side.right (Timestamp.Coord [2])).2.1 (by decide)

/-- Helper invariant for the watermark-merge loop: every watermark event
emitted from a given starting state is strictly above that state's merged
watermark, and the emitted sequence is strictly increasing pairwise. -/
theorem process_two_streams_run_above :
    ∀ (inputs : List (Side × Msg)) (st : TwoStreamState),
      (∀ x ∈ (process_two_streams_run st inputs).2,
        Timestamp.ltb st.min_watermark x = true) ∧
      List.Pairwise (fun a b => Timestamp.ltb a b = true)
        (process_two_streams_run st inputs).2 := by
  intro inputs
  induction inputs with
  | nil =>
    intro st
    simp [process_two_streams_run]
  | cons i rest ih =>
    intro st
    obtain ⟨s, m⟩ := i
    cases m with
    | data t p =>
      simpa [process_two_streams_run, process_two_streams_step] using ih st
    | watermark t =>
      cases s with
      | left =>
        by_cases h :
            Timestamp.ltb st.min_watermark (tmin t st.right_watermark) = true
        · have hlt : Timestamp.ltb st.min_watermark t = true := (tmin_lt_both h).1
          obtain ⟨ih1, ih2⟩ := ih { st with left_watermark := t, min_watermark := t }
          simp only [process_two_streams_run, process_two_streams_step,
            if_pos h, List.singleton_append]
          refine ⟨?_, ?_⟩
          · intro x hx
            rcases List.mem_cons.mp hx with hx | hx
            · rw [hx]; exact hlt
            · exact Timestamp.ltb_trans _ _ _ hlt (ih1 x hx)
          · exact List.pairwise_cons.mpr ⟨ih1, ih2⟩
        · obtain ⟨ih1, ih2⟩ := ih { st with left_watermark := t }
          simp only [process_two_streams_run, process_two_streams_step,
            if_neg h, List.nil_append]
          exact ⟨ih1, ih2⟩
      | right =>
        by_cases h :
            Timestamp.ltb st.min_watermark (tmin st.left_watermark t) = true
        · have hlt : Timestamp.ltb st.min_watermark t = true := (tmin_lt_both h).2
          obtain ⟨ih1, ih2⟩ := ih { st with right_watermark := t, min_watermark := t }
          simp only [process_two_streams_run, process_two_streams_step,
            if_pos h, List.singleton_append]
          refine ⟨?_, ?_⟩
          · intro x hx
            rcases List.mem_cons.mp hx with hx | hx
            · rw [hx]; exact hlt
            · exact Timestamp.ltb_trans _ _ _ hlt (ih1 x hx)
          · exact List.pairwise_cons.mpr ⟨ih1, ih2⟩
        · obtain ⟨ih1, ih2⟩ := ih { st with right_watermark := t }
          simp only [process_two_streams_run, process_two_streams_step,
            if_neg h, List.nil_append]
          exact ⟨ih1, ih2⟩

/-- C2.  For every sequence of messages delivered on the two input streams
of `process_two_streams`, the sequence of timestamps of the
watermark-callback events it produces is strictly monotonically
increasing: each produced event's timestamp strictly exceeds every
earlier produced one. -/
theorem emitted_watermarks_strictly_increasing
    (inputs : List (Side × Msg)) :
    List.Pairwise (fun a b => Timestamp.ltb a b = true)
      (emitted_watermarks inputs) :=
  (process_two_streams_run_above inputs two_stream_init).2

/-! ### Deadline management: `manage_deadlines` and the firing branch of
`process_stream` -/

/-- Modelled from the spec: `dataflow::deadlines::DeadlineEvent` is not
under `src/`.  An armed deadline instance carries
`(stream_id, timestamp, duration, end_condition, handler)` (spec §3);
stream identifiers, durations, and the opaque handler and end-condition
values are modelled as `Nat`. -/
structure DeadlineEvent where
  stream_id : Nat
  timestamp : Timestamp
  duration : Nat
  handler : Nat
  end_condition : Nat
deriving DecidableEq, Repr

/-- The deadline-related state of `OperatorExecutorHelper`
(`mod.rs:151-159`): the `(stream_id, timestamp) → DelayHandle` map for
active deadlines (keys are unique, as in a `HashMap`), the delay queue of
installed timers with their durations, and a counter standing in for the
fresh `DelayHandle` values the queue returns. -/
structure DeadlineQueueState where
  stream_timestamp_to_key_map : List ((Nat × Timestamp) × Nat)
  deadline_queue : List (DeadlineEvent × Nat)
  next_handle : Nat
deriving DecidableEq, Repr

/-- `HashMap::contains_key` on the active-deadline map. -/
def containsKey (m : List ((Nat × Timestamp) × Nat))
    (k : Nat × Timestamp) : Bool :=
  m.any (fun e => decide (e.1 = k))

/-- `OperatorExecutorHelper::manage_deadlines` (`mod.rs:181-205`): for
each `DeadlineEvent`, if `(stream_id, timestamp)` is already a key of the
active-deadline map the event is skipped; otherwise the event is
installed into the delay queue with its duration and the key is mapped to
the fresh `DelayHandle`. -/
def manage_deadlines (st : DeadlineQueueState) :
    List DeadlineEvent → DeadlineQueueState
  | [] => st
  | ev :: rest =>
      if containsKey st.stream_timestamp_to_key_map
          (ev.stream_id, ev.timestamp) then
        manage_deadlines st rest
      else
        manage_deadlines
          { stream_timestamp_to_key_map :=
              st.stream_timestamp_to_key_map
                ++ [((ev.stream_id, ev.timestamp), st.next_handle)]
            deadline_queue := st.deadline_queue ++ [(ev, ev.duration)]
            next_handle := st.next_handle + 1 } rest

theorem containsKey_eq_true_iff (m : List ((Nat × Timestamp) × Nat))
    (k : Nat × Timestamp) :
    containsKey m k = true ↔ k ∈ m.map Prod.fst := by
  rw [containsKey, List.any_eq_true]
  constructor
  · rintro ⟨e, he, hk⟩
    exact List.mem_map.mpr ⟨e, he, of_decide_eq_true hk⟩
  · intro h
    obtain ⟨e, he, hk⟩ := List.mem_map.mp h
    exact ⟨e, he, decide_eq_true hk⟩

theorem containsKey_eq_false_iff (m : List ((Nat × Timestamp) × Nat))
    (k : Nat × Timestamp) :
    containsKey m k = false ↔ k ∉ m.map Prod.fst := by
  rw [← Bool.not_eq_true, containsKey_eq_true_iff]

/-- Helper: `manage_deadlines` preserves distinctness of the map keys. -/
theorem manage_deadlines_nodup :
    ∀ (events : List DeadlineEvent) (st : DeadlineQueueState),
      (st.stream_timestamp_to_key_map.map Prod.fst).Nodup →
      ((manage_deadlines st events).stream_timestamp_to_key_map.map
        Prod.fst).Nodup := by
  intro events
  induction events with
  | nil => intro st h; exact h
  | cons ev rest ih =>
    intro st h
    by_cases hk : containsKey st.stream_timestamp_to_key_map
        (ev.stream_id, ev.timestamp) = true
    · rw [manage_deadlines, if_pos hk]
      exact ih st h
    · rw [manage_deadlines, if_neg hk]
      apply ih
      have hnotin : (ev.stream_id, ev.timestamp)
          ∉ st.stream_timestamp_to_key_map.map Prod.fst :=
        (containsKey_eq_false_iff _ _).mp (by simpa using hk)
      simp only [List.map_append, List.map_cons, List.map_nil]
      refine List.Nodup.append h (List.nodup_singleton _) ?_
      intro a ha hb
      rw [List.mem_singleton] at hb
      subst hb
      exact hnotin ha

/-- C6.  `manage_deadlines` is idempotent per key: an event whose
`(stream_id, timestamp)` key is already present in the active-deadline
map installs no timer and leaves the whole helper state unchanged; and
for any batch of events, distinctness of the map keys is preserved, so at
any time there is at most one armed deadline per key. -/
theorem manage_deadlines_idempotent
    (st : DeadlineQueueState) (ev : DeadlineEvent)
    (h : containsKey st.stream_timestamp_to_key_map
      (ev.stream_id, ev.timestamp) = true) :
    manage_deadlines st [ev] = st ∧
    ∀ events : List DeadlineEvent,
      (st.stream_timestamp_to_key_map.map Prod.fst).Nodup →
      ((manage_deadlines st events).stream_timestamp_to_key_map.map
        Prod.fst).Nodup := by
  constructor
  · rw [manage_deadlines, if_pos h, manage_deadlines]
  · intro events hn
    exact manage_deadlines_nodup events st hn

/-- C6 — witness: a concrete helper state holding an armed deadline for
`(7, [1])`, on which re-inserting the same event is a no-op and key
distinctness is preserved. -/
theorem manage_deadlines_idempotent_witness :
    manage_deadlines
      { stream_timestamp_to_key_map := [((7, Timestamp.Coord [1]), 0)]
        deadline_queue :=
          [({ stream_id := 7, timestamp := Timestamp.Coord [1]
              duration := 50, handler := 0, end_condition := 0 }, 50)]
        next_handle := 1 }
      [{ stream_id := 7, timestamp := Timestamp.Coord [1]
         duration := 50, handler := 0, end_condition := 0 }]
    = { stream_timestamp_to_key_map := [((7, Timestamp.Coord [1]), 0)]
        deadline_queue :=
          [({ stream_id := 7, timestamp := Timestamp.Coord [1]
              duration := 50, handler := 0, end_condition := 0 }, 50)]
        next_handle := 1 } :=
  (manage_deadlines_idempotent
    { stream_timestamp_to_key_map := [((7, Timestamp.Coord [1]), 0)]
      deadline_queue :=
        [({ stream_id := 7, timestamp := Timestamp.Coord [1]
            duration := 50, handler := 0, end_condition := 0 }, 50)]
      next_handle := 1 }
    { stream_id := 7, timestamp := Timestamp.Coord [1]
      duration := 50, handler := 0, end_condition := 0 }
    (by decide)).1

/-- The observable outcome of one firing of the deadline branch of
`process_stream` (`mod.rs:222-256`): which handler invocations happened
(as `(condition_context, timestamp)` pairs), the resulting
active-deadline map, whether the missing-key warning was logged, and
whether the loop was terminated by the firing. -/
structure DeadlineFiringOutcome where
  handler_invocations : List (Nat × Timestamp)
  map : List ((Nat × Timestamp) × Nat)
  warned : Bool
  loop_exited : Bool
deriving DecidableEq, Repr

/-- The deadline-firing arm of the `tokio::select!` in `process_stream`
(`mod.rs:222-256`): consult `disarm_deadline`; when it returns false,
invoke the handler once with the read stream's condition context (modelled
as a `Nat`) and the armed timestamp; in either case remove the
`(stream_id, timestamp)` entry from the map, logging a warning when the
key was absent; the loop always continues. -/
def process_stream_deadline_step (disarm : Bool) (condition_context : Nat)
    (st : DeadlineQueueState) (ev : DeadlineEvent) : DeadlineFiringOutcome :=
  { handler_invocations :=
      if disarm then [] else [(condition_context, ev.timestamp)]
    map := st.stream_timestamp_to_key_map.filter
      (fun e => !decide (e.1 = (ev.stream_id, ev.timestamp)))
    warned := !containsKey st.stream_timestamp_to_key_map
      (ev.stream_id, ev.timestamp)
    loop_exited := false }

theorem containsKey_filter_out (m : List ((Nat × Timestamp) × Nat))
    (k : Nat × Timestamp) :
    containsKey (m.filter (fun e => !decide (e.1 = k))) k = false := by
  rw [containsKey_eq_false_iff]
  intro hmem
  obtain ⟨e, he, hk⟩ := List.mem_map.mp hmem
  have := (List.mem_filter.mp he).2
  rw [hk] at this
  simp at this

/-- C7.  When a deadline fires in `process_stream`: if `disarm_deadline`
returns true the handler is not invoked, otherwise it is invoked exactly
once with the read stream's condition context and the armed timestamp;
in either case the `(stream_id, timestamp)` entry is removed from the
active-deadline map; a firing whose key is absent is logged as a warning
(and only then); and the firing never terminates the loop. -/
theorem process_stream_deadline_step_spec
    (disarm : Bool) (cc : Nat)
    (st : DeadlineQueueState) (ev : DeadlineEvent) :
    (disarm = true →
      (process_stream_deadline_step disarm cc st ev).handler_invocations
        = []) ∧
    (disarm = false →
      (process_stream_deadline_step disarm cc st ev).handler_invocations
        = [(cc, ev.timestamp)]) ∧
    containsKey (process_stream_deadline_step disarm cc st ev).map
      (ev.stream_id, ev.timestamp) = false ∧
    ((process_stream_deadline_step disarm cc st ev).warned = true ↔
      containsKey st.stream_timestamp_to_key_map
        (ev.stream_id, ev.timestamp) = false) ∧
    (process_stream_deadline_step disarm cc st ev).loop_exited = false := by
  refine ⟨?_, ?_, ?_, ?_, rfl⟩
  · intro h; simp [process_stream_deadline_step, h]
  · intro h; simp [process_stream_deadline_step, h]
  · exact containsKey_filter_out _ _
  · simp [process_stream_deadline_step]

/-- C7 — witness at a concrete firing: disarm refused, key present. -/
theorem process_stream_deadline_step_spec_witness :
    (process_stream_deadline_step false 3
        { stream_timestamp_to_key_map := [((7, Timestamp.Coord [1]), 0)]
          deadline_queue := []
          next_handle := 1 }
        { stream_id := 7, timestamp := Timestamp.Coord [1]
          duration := 50, handler := 0
          end_condition := 0 }).handler_invocations
      = [(3, Timestamp.Coord [1])] :=
  ((process_stream_deadline_step_spec false 3
    { stream_timestamp_to_key_map := [((7, Timestamp.Coord [1]), 0)]
      deadline_queue := []
      next_handle := 1 }
    { stream_id := 7, timestamp := Timestamp.Coord [1]
      duration := 50, handler := 0, end_condition := 0 }).2.1) rfl

/-! ### Callback-event priorities (C4) and the message path of
`process_stream` (C5) -/

/-- The executor/processor variants present under `src/`:
`OneInOneOutExecutor` (one_in_one_out_executor.rs),
`ParallelOneInTwoOutMessageProcessor` and the sequential
`OneInTwoOutMessageProcessor` (one_in_two_out_executor.rs). -/
inductive ExecVariant where
  | oneInOneOut : ExecVariant
  | parallelOneInTwoOut : ExecVariant
  | seqOneInTwoOut : ExecVariant
deriving DecidableEq, Repr

/-- The priority number passed to `OperatorEvent::new` by each variant's
`message_cb_event` (one_in_one_out_executor.rs:195,
one_in_two_out_executor.rs:126 and :311): always 0. -/
def message_cb_event_priority : ExecVariant → Nat
  | .oneInOneOut => 0
  | .parallelOneInTwoOut => 0
  | .seqOneInTwoOut => 0

/-- The priority number passed to `OperatorEvent::new` by each variant's
`watermark_cb_event`: 127 when `flow_watermarks` is set
(one_in_one_out_executor.rs:217, one_in_two_out_executor.rs:163 and
:349), otherwise 0 (one_in_one_out_executor.rs:231,
one_in_two_out_executor.rs:193 and :383). -/
def watermark_cb_event_priority : ExecVariant → Bool → Nat
  | .oneInOneOut, true => 127
  | .oneInOneOut, false => 0
  | .parallelOneInTwoOut, true => 127
  | .parallelOneInTwoOut, false => 0
  | .seqOneInTwoOut, true => 127
  | .seqOneInTwoOut, false => 0

/-- C4 — counterexample.  For the OneInOneOut executor with
`flow_watermarks = false`, the data-callback priority (0) is not strictly
lower than the watermark-callback priority (also 0). -/
theorem cb_event_priority_cex :
    ¬ message_cb_event_priority ExecVariant.oneInOneOut
        < watermark_cb_event_priority ExecVariant.oneInOneOut false := by
  decide

/-- C4 — amended.  For every timestamp and every executor variant, every
data-callback event carries a priority number less than or equal to that
of the watermark-callback event, and strictly lower exactly when
`flow_watermarks` is true (with `flow_watermarks = false` both are 0). -/
theorem cb_event_priority_le (v : ExecVariant) (flow : Bool) :
    message_cb_event_priority v ≤ watermark_cb_event_priority v flow ∧
    (message_cb_event_priority v < watermark_cb_event_priority v flow ↔
      flow = true) := by
  cases v <;> cases flow <;> simp [message_cb_event_priority,
    watermark_cb_event_priority]

/-- The kind and timestamp of an `OperatorEvent` as inserted into the
lattice, abstracting the closure. -/
inductive EvKind where
  | statelessData : Timestamp → EvKind
  | statefulData : Timestamp → EvKind
  | watermarkCb : Timestamp → EvKind
deriving DecidableEq, Repr

/-- The events built by the message arm of `process_stream`
(`mod.rs:264-286`) for one incoming message: for a data message only the
stateless `message_cb_event` (the stateful event is left as a TODO in the
source and never constructed); for a watermark the `watermark_cb_event`. -/
def process_stream_msg_events : Msg → List EvKind
  | .data t _ => [.statelessData t]
  | .watermark t => [.watermarkCb t]

/-- The observable outcome of the message arm of `process_stream` for one
message (`mod.rs:264-300`): the batches handed to `lattice.add_events`
(each call is one atomic batch) and the notifications sent to the
event-runner channel afterwards (each `AddedEvents(operator_id)` is
modelled by the operator id). -/
structure MsgStepOutcome where
  batches : List (List EvKind)
  notifications : List Nat
deriving DecidableEq, Repr

/-- The message arm of `process_stream` for one message: build the events,
insert them through a single `lattice.add_events` call, then send
`AddedEvents(operator_id)` (`mod.rs:296-299`).  Deadline arming
(`mod.rs:289-294`) is modelled separately by `manage_deadlines`. -/
def process_stream_msg_step (operator_id : Nat) (m : Msg) : MsgStepOutcome :=
  { batches := [process_stream_msg_events m]
    notifications := [operator_id] }

/-- C5 — counterexample.  For a concrete data message at timestamp `[1]`,
`process_stream` builds exactly one event — the stateless one — and no
stateful data event, even for stateful operators (the source has only a
TODO where the stateful event would be built, `mod.rs:268-277`). -/
theorem process_stream_data_no_stateful_cex :
    EvKind.statefulData (Timestamp.Coord [1])
        ∉ process_stream_msg_events (Msg.data (Timestamp.Coord [1]) 7) ∧
    (process_stream_msg_events (Msg.data (Timestamp.Coord [1]) 7)).length
        = 1 := by
  decide

/-- C5 — amended.  For every data message read from the input stream,
`process_stream` asks the processor for exactly one data-callback event —
the stateless `message_cb_event`, with no additional stateful event for
stateful operators — inserts it into the lattice as a single atomic
batch, and then sends one `AddedEvents(operator_id)` notification. -/
theorem process_stream_data_msg_step (operator_id : Nat) (t : Timestamp)
    (payload : Nat) :
    (process_stream_msg_step operator_id (Msg.data t payload)).batches
      = [[EvKind.statelessData t]] ∧
    (process_stream_msg_step operator_id (Msg.data t payload)).notifications
      = [operator_id] :=
  ⟨rfl, rfl⟩

/-! ### Watermark-callback closures as action traces (C8, C10) -/

/-- One observable action inside a watermark-callback closure.  A
`sendWatermark` carries whether the send's error is discarded (the
source's `.ok()` — always true inside closures), the output-stream index
(0 = only/left stream, 1 = right stream) and the timestamp sent;
`lockState`/`lockOperator` are acquisitions of the corresponding
`std::sync::Mutex` (the guards live to the end of the closure, so no
release actions occur inside it). -/
inductive Act where
  | onWatermark : Act
  | sendWatermark : Bool → Nat → Timestamp → Act
  | commitState : Timestamp → Act
  | lockState : Act
  | lockOperator : Act
deriving DecidableEq, Repr

/-- The closure built by `OneInOneOutExecutor::watermark_cb_event`
(one_in_one_out_executor.rs:204-241): with `flow_watermarks` it calls
`O::on_watermark` and then sends `Watermark(t)` on the single output
stream ignoring the send error; without it, only `O::on_watermark`. -/
def one_in_one_out_watermark_closure (flow : Bool) (t : Timestamp) :
    List Act :=
  if flow then
    [Act.onWatermark, Act.sendWatermark true 0 t]
  else
    [Act.onWatermark]

/-- The closure built by
`ParallelOneInTwoOutMessageProcessor::watermark_cb_event`
(one_in_two_out_executor.rs:145-212): `on_watermark`, then (with
`flow_watermarks`) a `Watermark(t)` on the left and right output streams
ignoring send errors, then `state.commit(t)`. -/
def parallel_one_in_two_out_watermark_closure (flow : Bool)
    (t : Timestamp) : List Act :=
  if flow then
    [Act.onWatermark, Act.sendWatermark true 0 t,
      Act.sendWatermark true 1 t, Act.commitState t]
  else
    [Act.onWatermark, Act.commitState t]

/-- The closure built by the sequential
`OneInTwoOutMessageProcessor::watermark_cb_event`
(one_in_two_out_executor.rs:331-406).  With `flow_watermarks` (lines
352-376): lock the state (`state.lock()` bound to `mutable_state`), lock
the operator, call `on_watermark` with the held state guard, send
`Watermark(t)` on both output streams ignoring errors, commit.  Without
`flow_watermarks` (lines 386-401): lock the state into `mutable_state`,
lock the operator, then — while `mutable_state` still holds the state
mutex — evaluate `&mut state.lock().unwrap()` a second time for the
`OneInTwoOutContext` argument, and only then call `on_watermark` and
commit. -/
def one_in_two_out_watermark_closure (flow : Bool) (t : Timestamp) :
    List Act :=
  if flow then
    [Act.lockState, Act.lockOperator, Act.onWatermark,
      Act.sendWatermark true 0 t, Act.sendWatermark true 1 t,
      Act.commitState t]
  else
    [Act.lockState, Act.lockOperator, Act.lockState, Act.onWatermark,
      Act.commitState t]

/-- The watermark-callback closure of each variant. -/
def watermark_closure : ExecVariant → Bool → Timestamp → List Act
  | .oneInOneOut, flow, t => one_in_one_out_watermark_closure flow t
  | .parallelOneInTwoOut, flow, t =>
      parallel_one_in_two_out_watermark_closure flow t
  | .seqOneInTwoOut, flow, t => one_in_two_out_watermark_closure flow t

/-- The output-stream indices of each variant. -/
def output_streams : ExecVariant → List Nat
  | .oneInOneOut => [0]
  | .parallelOneInTwoOut => [0, 1]
  | .seqOneInTwoOut => [0, 1]

/-- Is this action a watermark send? -/
def isSend : Act → Bool
  | .sendWatermark _ _ _ => true
  | _ => false

/-- Is this action a watermark send or the `on_watermark` call? -/
def isSendOrWm : Act → Bool
  | .sendWatermark _ _ _ => true
  | .onWatermark => true
  | _ => false

/-- C8.  For every executor variant and timestamp `t`: with
`flow_watermarks = true` the watermark-callback closure performs the
user's `on_watermark` first and only afterwards exactly one
error-ignoring `Watermark(t)` send per output stream, in stream order
(the subtrace of sends and `on_watermark` is exactly `on_watermark`
followed by one ignoring send per output stream); with
`flow_watermarks = false` the closure re-emits no watermark at all. -/
theorem watermark_closure_flow_spec (v : ExecVariant) (t : Timestamp) :
    (watermark_closure v true t).filter isSendOrWm
        = Act.onWatermark
            :: (output_streams v).map (fun s => Act.sendWatermark true s t) ∧
    (watermark_closure v false t).filter isSend = [] := by
  cases v <;>
    simp [watermark_closure, one_in_one_out_watermark_closure,
      parallel_one_in_two_out_watermark_closure,
      one_in_two_out_watermark_closure, output_streams, isSend, isSendOrWm,
      List.filter]

/-- A tiny semantics for the state mutex inside one closure: fold the
action trace tracking whether the (non-reentrant) state mutex is held;
acquiring it while held does not return, modelled as `none`. -/
def run_locks : List Act → Bool → Option Bool
  | [], held => some held
  | Act.lockState :: rest, held =>
      if held then none else run_locks rest true
  | _ :: rest, held => run_locks rest held

/-- C10 — the sequential OneInTwoOut watermark closure with
`flow_watermarks = false` acquires the state mutex a second time (for the
context argument, one_in_two_out_executor.rs:395) while the guard taken at
line 388 is still held, so running it from the unlocked state does not
terminate; the `flow_watermarks = true` branch of the same function locks
exactly once and runs to completion. -/
theorem one_in_two_out_watermark_relock :
    run_locks
        (one_in_two_out_watermark_closure false (Timestamp.Coord [1]))
        false = none ∧
    ((one_in_two_out_watermark_closure false (Timestamp.Coord [1])).filter
        (fun a => decide (a = Act.lockState))).length = 2 ∧
    run_locks
        (one_in_two_out_watermark_closure true (Timestamp.Coord [1]))
        false = some true ∧
    ((one_in_two_out_watermark_closure true (Timestamp.Coord [1])).filter
        (fun a => decide (a = Act.lockState))).length = 1 := by
  decide

/-! ### Executor lifecycle traces (C3, C9) -/

/-- One lifecycle-level action of an executor's `execute`. -/
inductive LAct where
  | synchronize : LAct
  | setup_hook : LAct
  | run_hook : LAct
  | event_loop : LAct
  | destroy_hook : LAct
  | send_top : Nat → LAct
  | notify_destroyed : LAct
  | panic_abort : LAct
deriving DecidableEq, Repr

/-- How the selection between the helper loop and the worker channel
ended (one_in_one_out_executor.rs:108-126): the stream loop terminated, a
`Shutdown` notification arrived, or the worker channel errored. -/
inductive ExitMode where
  | stream_ended : ExitMode
  | shutdown_received : ExitMode
  | worker_channel_err : ExitMode
deriving DecidableEq, Repr

/-- The lifecycle trace of `OneInOneOutExecutor::execute`
(one_in_one_out_executor.rs:74-147): synchronize, setup, the blocking
`run` hook, the select loop (all three exit modes fall through to the
same continuation), the blocking `destroy` hook; then, if the output
stream is not closed, one `Watermark(Top)` send whose failure panics via
`expect` (lines 135-142); finally the `DestroyedOperator` notification
(lines 144-146).  `closed` is the result of the `is_closed` check and
`send_ok` whether the Top send succeeds. -/
def one_in_one_out_execute (exit : ExitMode) (closed send_ok : Bool) :
    List LAct :=
  match exit with
  | _ =>
    [LAct.synchronize, LAct.setup_hook, LAct.run_hook, LAct.event_loop,
      LAct.destroy_hook]
    ++ (if closed then [LAct.notify_destroyed]
        else if send_ok then [LAct.send_top 0, LAct.notify_destroyed]
        else [LAct.panic_abort])

/-- `OneInTwoOutMessageProcessor::cleanup`
(one_in_two_out_executor.rs:279-298; the parallel variant at 93-112 is
identical): send `Watermark(Top)` on the left then the right output
stream, skipping closed streams; a failed send panics via `expect`,
aborting before any later stream is handled. -/
def one_in_two_out_cleanup (closedL okL closedR okR : Bool) : List LAct :=
  if closedL then
    (if closedR then [] else if okR then [LAct.send_top 1]
      else [LAct.panic_abort])
  else if okL then
    LAct.send_top 0
      :: (if closedR then [] else if okR then [LAct.send_top 1]
          else [LAct.panic_abort])
  else [LAct.panic_abort]

/-- Modelled from the spec: the generic executor that drives the
OneInTwoOut message processors is not under `src/` (only the processors
are).  Per §4.2 of the spec the lifecycle inside `execute` is
synchronize, setup, the blocking `run` hook, the selection loop, the
blocking `destroy` hook, then the terminal watermarks (the processor's
`cleanup`, which is under `src/` and embedded above) and finally the
`DestroyedOperator` notification — which is not reached if `cleanup`
panicked. -/
def one_in_two_out_execute (exit : ExitMode)
    (closedL okL closedR okR : Bool) : List LAct :=
  match exit with
  | _ =>
    [LAct.synchronize, LAct.setup_hook, LAct.run_hook, LAct.event_loop,
      LAct.destroy_hook]
    ++ one_in_two_out_cleanup closedL okL closedR okR
    ++ (if LAct.panic_abort ∈ one_in_two_out_cleanup closedL okL closedR okR
        then [] else [LAct.notify_destroyed])

/-- Is this action the destroy hook or a terminal-watermark send? -/
def isDestroyOrTop (a : LAct) : Bool :=
  decide (a = LAct.destroy_hook) || decide (a = LAct.send_top 0)
    || decide (a = LAct.send_top 1)

/-- C3.  For every exit mode (normal loop exit, Shutdown, worker-channel
error) and closedness of the output streams, assuming the terminal sends
succeed: after `execute` the destroy hook has run; the subtrace of
destroy and Top sends is destroy first, then exactly one `Watermark(Top)`
per output stream that was not already closed (and none on closed ones),
so no Top is ever sent before destroy returns; and the final action is
the `DestroyedOperator` notification — for `OneInOneOutExecutor::execute`
and for the spec-modelled executor around
`OneInTwoOutMessageProcessor::cleanup` alike. -/
theorem execute_terminal_watermark_spec (exit : ExitMode)
    (closed closedL closedR : Bool) :
    (one_in_one_out_execute exit closed true).filter isDestroyOrTop
        = LAct.destroy_hook
            :: (if closed then [] else [LAct.send_top 0]) ∧
    (one_in_one_out_execute exit closed true).getLast?
        = some LAct.notify_destroyed ∧
    (one_in_two_out_execute exit closedL true closedR true).filter
        isDestroyOrTop
        = LAct.destroy_hook
            :: ((if closedL then [] else [LAct.send_top 0])
              ++ (if closedR then [] else [LAct.send_top 1])) ∧
    (one_in_two_out_execute exit closedL true closedR true).getLast?
        = some LAct.notify_destroyed := by
  cases exit <;> cases closed <;> cases closedL <;> cases closedR <;> decide

/-- C9 — counterexample.  When the terminal `Watermark(Top)` send on the
open output stream fails (the downstream closed between the `is_closed`
check and the send), `OneInOneOutExecutor::execute` does not log and
continue: it panics via `expect` and never reaches the
`DestroyedOperator` notification. -/
theorem terminal_send_failure_cex :
    (one_in_one_out_execute ExitMode.stream_ended false false).getLast?
        = some LAct.panic_abort ∧
    LAct.notify_destroyed
        ∉ one_in_one_out_execute ExitMode.stream_ended false false := by
  decide

/-- C9 — amended.  If sending the terminal `Watermark(Top)` on an output
stream fails, the executor panics via `expect` with an error message
naming the operator, aborting before the `DestroyedOperator` notification
(and, in the OneInTwoOut cleanup, before any later output stream is
handled), rather than logging the failure and continuing. -/
theorem terminal_send_failure_panics (exit : ExitMode)
    (closedR okR : Bool) :
    (one_in_one_out_execute exit false false).getLast?
        = some LAct.panic_abort ∧
    LAct.notify_destroyed ∉ one_in_one_out_execute exit false false ∧
    one_in_two_out_cleanup false false closedR okR = [LAct.panic_abort] ∧
    LAct.notify_destroyed ∉ one_in_two_out_execute exit false false
        closedR okR := by
  cases exit <;> cases closedR <;> cases okR <;> decide

end Erdos
